import Mathlib

/-!
Verification of the Bahrain-Delivery-Backend order, ledger and realtime
routing logic.  The JavaScript source is shallowly embedded: money amounts
are exact rationals, the JavaScript toFixed(2) rounding is `round2`, mongoose
documents are Lean structures, the database is a list of documents, and every
fallible controller returns an explicit outcome value.  Each definition is a
direct translation of the corresponding function in the repository; the file
then settles the specification claims against these definitions.
-/

/-- Rounding to two decimal places (round half up), the idealisation of the
JavaScript `Number(x.toFixed(2))` applied to an exact rational value. -/
def round2 (q : ℚ) : ℚ := (⌊q * 100 + 1 / 2⌋ : ℚ) / 100

/-- A rational amount that is a whole number of cents, i.e. an exact
two-decimal fixed-point value. -/
def IsCents (q : ℚ) : Prop := ∃ n : ℤ, q = n / 100

/-- States of the order state machine (ORDER_STATUSES in models/Order.js). -/
inductive OrderStatus
  | Pending
  | Preparing
  | Cooked
  | Delivering
  | Completed
  | Cancelled
  deriving DecidableEq

/-- Fulfillment types (ORDER_TYPES in models/Order.js). -/
inductive OrderType
  | Delivery
  | Takeaway
  | DineIn
  deriving DecidableEq

/-- Courier vehicle classes (DELIVERY_VEHICLES in models/Order.js). -/
inductive Vehicle
  | Car
  | Motor
  | Bicycle
  deriving DecidableEq

/-- Transaction statuses (TRANSACTION_STATUSES in models/Transaction.js). -/
inductive TransactionStatus
  | PENDING
  | PAID
  | FAILED
  | REFUNDED
  | CANCELLED
  | PROCESSING
  | SUCCESS
  | APPROVED
  deriving DecidableEq

/-- The transition table ORDER_STATUS_FLOW of models/Order.js: the list of
statuses reachable from each status. -/
def ORDER_STATUS_FLOW : OrderStatus → List OrderStatus
  | .Pending => [.Preparing, .Cooked, .Cancelled]
  | .Preparing => [.Cooked, .Cancelled]
  | .Cooked => [.Delivering, .Cancelled, .Completed]
  | .Delivering => [.Completed, .Cancelled]
  | .Completed => []
  | .Cancelled => []

/-- orderSchema.methods.canTransitionTo: membership of the requested status in
the transition table entry of the current status. -/
def canTransitionTo (current target : OrderStatus) : Bool :=
  decide (target ∈ ORDER_STATUS_FLOW current)

/-- The order document (models/Order.js), restricted to the fields the
claims are about.  Money fields hold the stored Decimal128 values. -/
structure Order where
  id : Nat
  userId : Nat
  userPhone : String
  fromSponsore : Bool
  sponsoredPhone : Option String
  restaurantId : Nat
  orderStatus : OrderStatus
  typeOfOrder : OrderType
  deliveryVehicle : Option Vehicle
  deliveryId : Option Nat
  deliveryVerificationCode : Option String
  userVerificationCode : Option String
  orderCode : String
  foodTotal : ℚ
  vatTotal : ℚ
  deliveryFee : ℚ
  serviceFee : ℚ
  tip : ℚ
  totalPrice : ℚ
  txStatus : TransactionStatus
  txAmount : ℚ
  deriving DecidableEq

/-- Outcome of the updateOrderStatus controller for an order that exists:
either the order saved with the new status, or the 400 response whose message
carries the current and the requested status. -/
inductive UpdateStatusOutcome
  | ok (order : Order)
  | invalidTransition (current requested : OrderStatus)
  deriving DecidableEq

/-- The core of the updateOrderStatus controller (orderController), after its
input checks found the order and the requested status is one of the enum
values: validate against the transition table, then persist the new status;
otherwise reject carrying both the current and the requested status. -/
def updateOrderStatus (order : Order) (status : OrderStatus) : UpdateStatusOutcome :=
  if canTransitionTo order.orderStatus status then
    .ok { order with orderStatus := status }
  else
    .invalidTransition order.orderStatus status

/-- A sample paid Delivery order used as concrete input by several witnesses. -/
def sampleOrder : Order :=
  { id := 10
    userId := 20
    userPhone := "+97312345678"
    fromSponsore := false
    sponsoredPhone := none
    restaurantId := 5
    orderStatus := .Pending
    typeOfOrder := .Delivery
    deliveryVehicle := some .Car
    deliveryId := none
    deliveryVerificationCode := none
    userVerificationCode := none
    orderCode := "ORD-25A-8FA1C2"
    foodTotal := 250
    vatTotal := 25/2
    deliveryFee := 120
    serviceFee := 0
    tip := 10
    totalPrice := 785/2
    txStatus := .PAID
    txAmount := 785/2 }

/-- A delivery person as the accept handlers see the authenticated caller:
identity and registered vehicle class (req.user.deliveryMethod). -/
structure Courier where
  id : Nat
  deliveryMethod : Option Vehicle
  deriving DecidableEq

/-- Error responses of the two accept-order handlers. -/
inductive AcceptError
  | courierHasActiveOrder
  | orderNotFound
  | alreadyAccepted
  | notReady
  | notDeliveryOrder
  | vehicleMismatch
  deriving DecidableEq

/-- The query Order.findOne with deliveryId = courier and orderStatus not in
the terminal set; the pre-find hook of models/Order.js additionally restricts
every find to orders whose transaction status is PAID. -/
def hasActiveOrder (db : List Order) (courierId : Nat) : Bool :=
  db.any fun o =>
    decide (o.txStatus = .PAID) &&
    decide (o.deliveryId = some courierId) &&
    !(decide (o.orderStatus = .Completed) || decide (o.orderStatus = .Cancelled))

/-- Order.findById under the pre-find hook of models/Order.js: only orders
whose transaction status is PAID are visible without bypassPaidFilter. -/
def findPaidOrder (db : List Order) (orderId : Nat) : Option Order :=
  db.find? fun o => decide (o.id = orderId) && decide (o.txStatus = .PAID)

/-- Persisting a mutated order document back into the collection. -/
def saveOrder (db : List Order) (o : Order) : List Order :=
  db.map fun x => if x.id = o.id then o else x

/-- The HTTP acceptOrder controller (orderController): reject when the courier
already holds a non-terminal order, when the order is missing, not Cooked, not
a Delivery order, or of another vehicle class; otherwise store the freshly
generated pickup verification code and the courier on the order.  The source
has no check that order.deliveryId is still unset. -/
def acceptOrderHttp (db : List Order) (courier : Courier) (orderId : Nat)
    (freshCode : String) : Except AcceptError (List Order × String) :=
  if hasActiveOrder db courier.id then .error .courierHasActiveOrder
  else
    match findPaidOrder db orderId with
    | none => .error .orderNotFound
    | some order =>
      if order.orderStatus ≠ .Cooked then .error .notReady
      else if order.typeOfOrder ≠ .Delivery then .error .notDeliveryOrder
      else if courier.deliveryMethod ≠ order.deliveryVehicle then .error .vehicleMismatch
      else
        let claimed := { order with
          deliveryVerificationCode := some freshCode
          deliveryId := some courier.id }
        .ok (saveOrder db claimed, freshCode)

/-- The socket acceptOrder handler (socketServer.js): same flow as the HTTP
endpoint, except that an order whose deliveryId is already set is rejected
with the already-accepted error before the readiness checks. -/
def acceptOrderSocket (db : List Order) (courier : Courier) (orderId : Nat)
    (freshCode : String) : Except AcceptError (List Order × String) :=
  if hasActiveOrder db courier.id then .error .courierHasActiveOrder
  else
    match findPaidOrder db orderId with
    | none => .error .orderNotFound
    | some order =>
      if order.deliveryId ≠ none then .error .alreadyAccepted
      else if order.orderStatus ≠ .Cooked then .error .notReady
      else if order.typeOfOrder ≠ .Delivery then .error .notDeliveryOrder
      else if courier.deliveryMethod ≠ order.deliveryVehicle then .error .vehicleMismatch
      else
        let claimed := { order with
          deliveryVerificationCode := some freshCode
          deliveryId := some courier.id }
        .ok (saveOrder db claimed, freshCode)

/-- A Cooked, paid Delivery order already claimed by courier 1, still in
status Cooked (accepting an order does not change its status). -/
def claimedOrder : Order :=
  { sampleOrder with
    orderStatus := .Cooked
    deliveryId := some 1
    deliveryVerificationCode := some "111111" }

/-- A second courier with a matching vehicle class and no active order. -/
def courierTwo : Courier := { id := 2, deliveryMethod := some .Car }

/-- The SMS the webhook handler sends after marking the order paid: recipient
(sponsored phone for gift orders, else the customer phone) and the
verification code embedded in the message body. -/
structure SmsSend where
  phone : Option String
  code : String
  deriving DecidableEq

/-- The chapaWebhook controller (orderController) after the gateway verified
the transaction: the order is loaded with bypassPaidFilter, then without any
already-paid guard the handler sets the transaction status to PAID, copies the
total into the transaction amount, stores a freshly generated user
verification code, saves, and sends the SMS carrying that code.  Returns the
saved order and the SMS sent. -/
def chapaWebhookApply (order : Order) (freshCode : String) : Order × SmsSend :=
  let updated := { order with
    txStatus := .PAID
    txAmount := order.totalPrice
    userVerificationCode := some freshCode }
  let recipient : Option String :=
    if order.fromSponsore then order.sponsoredPhone else some order.userPhone
  (updated, { phone := recipient, code := freshCode })

/-- An order as it stands after a first successful webhook call: paid, with
the handoff verification code of that first call stored. -/
def paidWebhookOrder : Order :=
  (chapaWebhookApply sampleOrder "111111").1

/-- Owner kinds of a ledger entry (REQUESTER_TYPES in models/Balance.js). -/
inductive RequesterType
  | Delivery
  | Restaurant
  deriving DecidableEq

/-- Ledger entry kinds (TRANSACTION_TYPES in models/Balance.js). -/
inductive BalanceType
  | Deposit
  | Withdraw
  deriving DecidableEq

/-- A persisted ledger entry (balanceSchema in models/Balance.js).  ownerId is
the one of restaurantId and deliveryId that the requesterType selects. -/
structure BalanceDoc where
  requesterType : RequesterType
  ownerId : Nat
  originalAmount : ℚ
  fee : ℚ
  netAmount : ℚ
  type : BalanceType
  status : TransactionStatus
  note : String
  createdAt : Nat
  deriving DecidableEq

/-- The environment configuration the money computations read:
DELIVERY_DEPOSIT_FEE, RESTAURANT_DEPOSIT_FEE, GOV_VAT, DINEIN_SERVICE_FEE and
TAKEAWAY_SERVICE_FEE. -/
structure FeeConfig where
  deliveryDepositFee : ℚ
  restaurantDepositFee : ℚ
  govVat : ℚ
  dineInServiceFee : ℚ
  takeawayServiceFee : ℚ

/-- The deposit fee rate selected by owner kind in the pre-validate hook of
models/Balance.js. -/
def depositFeeRate (cfg : FeeConfig) : RequesterType → ℚ
  | .Delivery => cfg.deliveryDepositFee
  | .Restaurant => cfg.restaurantDepositFee

/-- The VAT rate applied to deposits: the configured government rate for
restaurants, zero for delivery people (models/Balance.js). -/
def depositVatRate (cfg : FeeConfig) : RequesterType → ℚ
  | .Delivery => 0
  | .Restaurant => cfg.govVat

/-- The platform fee the pre-validate hook computes for a new deposit. -/
def depositFee (cfg : FeeConfig) (rt : RequesterType) (original : ℚ) : ℚ :=
  round2 (original * depositFeeRate cfg rt)

/-- The net amount the pre-validate hook computes for a new deposit: the
post-fee amount is rounded to two decimals first, then the VAT multiplier is
applied and the result rounded again. -/
def depositNet (cfg : FeeConfig) (rt : RequesterType) (original : ℚ) : ℚ :=
  round2 (round2 (original - depositFee cfg rt original) * (1 + depositVatRate cfg rt))

/-- The document handed to Balance.create by the controllers.  originalAmount
is the value assigned to the schema path originalAmount; it is none when the
controller instead set the path named amount, which the schema does not
declare and strict-mode mongoose discards. -/
structure BalanceCreateDoc where
  requesterType : RequesterType
  ownerId : Nat
  originalAmount : Option ℚ
  type : BalanceType
  status : TransactionStatus
  note : String

/-- The pre-validate hook of models/Balance.js on a new document: for a
Deposit it computes fee and net amount from originalAmount, failing when
Number(originalAmount) is NaN (originalAmount missing); for every other type
it copies originalAmount into netAmount.  Returns (fee, netAmount). -/
def balancePreValidate (cfg : FeeConfig) (d : BalanceCreateDoc) :
    Except String (ℚ × Option ℚ) :=
  if d.type ≠ .Deposit then .ok (0, d.originalAmount)
  else
    match d.originalAmount with
    | none => .error "originalAmount is not a valid number"
    | some original =>
      .ok (depositFee cfg d.requesterType original,
        some (depositNet cfg d.requesterType original))

/-- Balance.create: run the pre-validate hook, then the schema validation
requiring originalAmount and netAmount to be present. -/
def balanceCreate (cfg : FeeConfig) (d : BalanceCreateDoc) (now : Nat) :
    Except String BalanceDoc :=
  match balancePreValidate cfg d with
  | .error e => .error e
  | .ok (fee, net?) =>
    match d.originalAmount, net? with
    | some original, some net =>
      .ok { requesterType := d.requesterType
            ownerId := d.ownerId
            originalAmount := original
            fee := fee
            netAmount := net
            type := d.type
            status := d.status
            note := d.note
            createdAt := now }
    | _, _ => .error "Balance validation failed: originalAmount and netAmount are required"

/-- The status set the calculateTotal aggregation of models/Balance.js
matches: APPROVED, PROCESSING and SUCCESS. -/
def approvedLike : List TransactionStatus := [.APPROVED, .PROCESSING, .SUCCESS]

/-- The signed contribution of one entry in the balance aggregations:
netAmount for a Deposit, minus netAmount for a Withdraw. -/
def signedNet (e : BalanceDoc) : ℚ :=
  if e.type = .Deposit then e.netAmount else -e.netAmount

/-- Balance.calculateTotal: sum the signed net amounts over the entries of
the owner whose status is in the approved-like set.  Both deposits and
withdrawals are filtered by that status set. -/
def calculateTotal (ledger : List BalanceDoc) (ownerId : Nat) : ℚ :=
  ((ledger.filter fun e =>
      decide (e.ownerId = ownerId) && decide (e.status ∈ approvedLike)).map
    signedNet).sum

/-- Modelled from the claim wording of C3: the balance as the sum of
netAmount over ALL deposit entries of the owner minus the sum of netAmount
over the withdrawals of the owner in the approved-like status set. -/
def specClaimedBalance (ledger : List BalanceDoc) (ownerId : Nat) : ℚ :=
  ((ledger.filter fun e =>
      decide (e.ownerId = ownerId) && decide (e.type = .Deposit)).map
    (fun e => e.netAmount)).sum -
  ((ledger.filter fun e =>
      decide (e.ownerId = ownerId) && decide (e.type = .Withdraw) &&
        decide (e.status ∈ approvedLike)).map
    (fun e => e.netAmount)).sum

/-- A restaurant deposit exactly as the pickup flow would record it: status
PAID, which is not in the approved-like set. -/
def paidDeposit : BalanceDoc :=
  { requesterType := .Restaurant
    ownerId := 5
    originalAmount := 100
    fee := 8
    netAmount := 92
    type := .Deposit
    status := .PAID
    note := "Deposit for order 10"
    createdAt := 0 }

/-- Modelled from the claim wording of C6: fee = round2(original * feeRate)
and, without intermediate rounding of the post-fee amount,
net = round2((original - fee) * (1 + vatRate)) for restaurants and
net = round2(original - fee) for delivery people. -/
def specClaimedDepositNet (cfg : FeeConfig) (rt : RequesterType) (original : ℚ) : ℚ :=
  match rt with
  | .Restaurant => round2 ((original - depositFee cfg rt original) * (1 + cfg.govVat))
  | .Delivery => round2 (original - depositFee cfg rt original)

/-- The default configuration of the fee computations: 10 percent delivery
deposit fee, 8 percent restaurant deposit fee, 5 percent government VAT, and
the flat service fees used in the examples. -/
def cfgDefault : FeeConfig :=
  { deliveryDepositFee := 1/10
    restaurantDepositFee := 8/100
    govVat := 5/100
    dineInServiceFee := 30
    takeawayServiceFee := 20 }

/-- Outcome of the pickUpOrder controller.  An ok outcome carries the
committed order collection and ledger; every error outcome aborts the
transaction, so it carries no state and nothing is persisted. -/
inductive PickupOutcome
  | ok (db : List Order) (ledger : List BalanceDoc)
  | notFound
  | invalidCode
  | serverError (msg : String)
  deriving DecidableEq

/-- The pickUpOrder controller (orderController): find the order by id with
status Cooked (the pre-find hook additionally requires a PAID transaction);
match the pickup code — the delivery verification code moves a Delivery order
to Delivering, the user verification code moves a Takeaway or DineIn order to
Completed; on a match, save the order and create the restaurant deposit inside
the same transaction.  The controller hands Balance.create the amount under
the non-schema path amount, so the created document has no originalAmount. -/
def pickUpOrder (cfg : FeeConfig) (db : List Order) (ledger : List BalanceDoc)
    (orderId : Nat) (code : String) (now : Nat) : PickupOutcome :=
  match db.find? fun o =>
      decide (o.id = orderId) && decide (o.orderStatus = .Cooked) &&
        decide (o.txStatus = .PAID) with
  | none => .notFound
  | some order =>
    let verified : Option Order :=
      match order.typeOfOrder with
      | .Delivery =>
        if order.deliveryVerificationCode = some code then
          some { order with orderStatus := .Delivering }
        else none
      | _ =>
        if order.userVerificationCode = some code then
          some { order with orderStatus := .Completed }
        else none
    match verified with
    | none => .invalidCode
    | some updated =>
      match balanceCreate cfg
          { requesterType := .Restaurant
            ownerId := order.restaurantId
            originalAmount := none
            type := .Deposit
            status := .PAID
            note := "Deposit for order" } now with
      | .error e => .serverError e
      | .ok doc => .ok (saveOrder db updated) (ledger ++ [doc])

/-- A paid, Cooked Delivery order claimed by courier 1, holding the pickup
verification code 123456. -/
def cookedOrder : Order :=
  { sampleOrder with
    orderStatus := .Cooked
    deliveryId := some 1
    deliveryVerificationCode := some "123456" }

/-- Outcome of the requestWithdraw controller, paired with the ledger after
the call. -/
inductive WithdrawOutcome
  | invalidAmount
  | bankRequired
  | insufficientBalance
  | payoutFailed
  | serverError (msg : String)
  | success
  deriving DecidableEq

/-- The requestWithdraw controller (balanceController): reject a missing or
non-positive amount, then a missing bank, then compare the amount against
calculateTotal; only past those checks is the Withdraw entry created (status
PROCESSING) and the external payout attempted — payout failure re-saves the
entry as FAILED, success as SUCCESS.  The controller hands Balance.create the
amount under the non-schema path amount, so creation fails validation and the
error propagates as a server error with the ledger unchanged. -/
def requestWithdraw (cfg : FeeConfig) (ledger : List BalanceDoc) (ownerId : Nat)
    (rt : RequesterType) (amount : Option ℚ) (bankId : Option String)
    (chapaOk : Bool) (now : Nat) : WithdrawOutcome × List BalanceDoc :=
  match amount with
  | none => (.invalidAmount, ledger)
  | some a =>
    if a ≤ 0 then (.invalidAmount, ledger)
    else
      match bankId with
      | none => (.bankRequired, ledger)
      | some _bank =>
        let availableBalance := calculateTotal ledger ownerId
        if availableBalance < a then (.insufficientBalance, ledger)
        else
          match balanceCreate cfg
              { requesterType := rt
                ownerId := ownerId
                originalAmount := none
                type := .Withdraw
                status := .PROCESSING
                note := "" } now with
          | .error e => (.serverError e, ledger)
          | .ok doc =>
            if chapaOk then (.success, ledger ++ [{ doc with status := .SUCCESS }])
            else (.payoutFailed, ledger ++ [{ doc with status := .FAILED }])

/-- The entries of one owner: the $or match on deliveryId/restaurantId used by
both balance aggregations of models/Balance.js.  No status filter. -/
def ownerEntries (ledger : List BalanceDoc) (ownerId : Nat) : List BalanceDoc :=
  ledger.filter fun e => decide (e.ownerId = ownerId)

/-- The $sort by createdAt ascending of getTransactionsWithRunningBalance. -/
def sortByCreatedAt (l : List BalanceDoc) : List BalanceDoc :=
  l.mergeSort fun a b => a.createdAt ≤ b.createdAt

/-- The $setWindowFields cumulative sum: annotate each entry with the running
total of signed net amounts from the first document to the current one. -/
def runningBalanceAnnotate (acc : ℚ) : List BalanceDoc → List (BalanceDoc × ℚ)
  | [] => []
  | e :: rest =>
    (e, acc + signedNet e) :: runningBalanceAnnotate (acc + signedNet e) rest

/-- Balance.getTransactionsWithRunningBalance: all entries of the owner —
with no status filter — sorted by creation time ascending, annotated with the
windowed cumulative deposit-minus-withdraw sum. -/
def getTransactionsWithRunningBalance (ledger : List BalanceDoc) (ownerId : Nat) :
    List (BalanceDoc × ℚ) :=
  runningBalanceAnnotate 0 (sortByCreatedAt (ownerEntries ledger ownerId))

/-- A deposit whose status is in the approved-like set, for the C7 witness. -/
def approvedDeposit : BalanceDoc := { paidDeposit with status := .APPROVED }

/-- The stored pricing snapshot validateAndComputeOrder returns: every field
holds the Decimal128 written via toFixed(2). -/
structure OrderPricing where
  foodTotal : ℚ
  vatTotal : ℚ
  deliveryFee : ℚ
  serviceFee : ℚ
  tip : ℚ
  totalPrice : ℚ
  deriving DecidableEq

/-- The switch of validateAndComputeOrder selecting the fee added to the
total: (deliveryFee, serviceFee), exactly one of which is nonzero by type —
the caller-supplied delivery fee for Delivery, the configured flat service
fee for DineIn and Takeaway. -/
def orderFees (cfg : FeeConfig) (typeOfOrder : OrderType)
    (calculatedDeliveryFee : ℚ) : ℚ × ℚ :=
  match typeOfOrder with
  | .Delivery => (calculatedDeliveryFee, 0)
  | .DineIn => (0, cfg.dineInServiceFee)
  | .Takeaway => (0, cfg.takeawayServiceFee)

/-- The pricing computation of Order.validateAndComputeOrder (models/Order.js)
over the resolved line items, each a pair of unit price and quantity: the food
total accumulates unrounded price-times-quantity, VAT is toFixed(2) of food
total times GOV_VAT, and the grand total adds the fee of the fulfillment type
to food total plus tip plus VAT.  All returned fields pass through toFixed(2)
on the way into Decimal128 storage. -/
def validateAndComputeOrderPricing (cfg : FeeConfig) (items : List (ℚ × ℕ))
    (typeOfOrder : OrderType) (tip : ℚ) (calculatedDeliveryFee : ℚ) : OrderPricing :=
  let foodTotal := (items.map fun i => i.1 * (i.2 : ℚ)).sum
  let vatTotal := round2 (foodTotal * cfg.govVat)
  let fees := orderFees cfg typeOfOrder calculatedDeliveryFee
  let totalPrice := foodTotal + tip + vatTotal + fees.1 + fees.2
  { foodTotal := round2 foodTotal
    vatTotal := round2 vatTotal
    deliveryFee := round2 fees.1
    serviceFee := round2 fees.2
    tip := round2 tip
    totalPrice := round2 totalPrice }

/-- A Takeaway order with one sub-cent priced item (10.006) and a sub-cent
tip (10.006), priced at the default configuration. -/
def pricingCex : OrderPricing :=
  validateAndComputeOrderPricing cfgDefault [(10006/1000, 1)] .Takeaway
    (10006/1000) 0

/-- One binding of the in-memory activeDeliveryOrders map of socketServer.js:
the order and the customer a courier is currently delivering for. -/
structure ActiveBinding where
  orderId : Nat
  userId : Nat
  deriving DecidableEq

/-- The location payload of a locationUpdateFromCustomerTracking event. -/
structure LocationPing where
  latitude : Option ℚ
  longitude : Option ℚ
  customerId : Option Nat
  orderId : Option Nat
  deriving DecidableEq

/-- isValidLocation of socketServer.js.  The source tests the coordinates
with JavaScript truthiness first, so a missing coordinate and the literal
coordinate 0 are both rejected, then checks the numeric ranges. -/
def isValidLocation (lat lng : Option ℚ) : Bool :=
  match lat, lng with
  | some la, some ln =>
    if la = 0 ∨ ln = 0 then false
    else
      decide (-90 ≤ la) && decide (la ≤ 90) &&
        decide (-180 ≤ ln) && decide (ln ≤ 180)
  | _, _ => false

/-- Outcome of the location-relay handler: an error event emitted back to the
sending socket, or the payload forwarded to every live connection of the
customer. -/
inductive RelayOutcome
  | errorToSender (msg : String)
  | forwardedToCustomer (customerId : Nat) (orderId : Nat)
  deriving DecidableEq

/-- The locationUpdateFromCustomerTracking handler of socketServer.js: reject
missing or invalid location data, missing customer or order ids, a sender
with no binding in the active-delivery map, a declared order that is not the
bound order, and a declared customer that is not the bound customer; only
when the declared pair equals the binding of the sender is the location
forwarded to the customer. -/
def locationUpdateFromCustomerTracking (active : List (Nat × ActiveBinding))
    (senderId : Nat) (ping : Option LocationPing) : RelayOutcome :=
  match ping with
  | none => .errorToSender "Location data is required"
  | some loc =>
    if !isValidLocation loc.latitude loc.longitude then
      .errorToSender "Invalid location data"
    else
      match loc.customerId, loc.orderId with
      | some customerId, some orderId =>
        match List.lookup senderId active with
        | none => .errorToSender "No active order assigned"
        | some assigned =>
          if assigned.orderId ≠ orderId then
            .errorToSender "You are not assigned to this order"
          else if assigned.userId ≠ customerId then
            .errorToSender "Customer mismatch for this delivery"
          else
            .forwardedToCustomer customerId orderId
      | _, _ => .errorToSender "Customer ID and Order ID are required"

/-- Claim C9: the status-update operation changes an order from S to T exactly
when T is listed for S in the transition table; any other requested transition
fails with an error carrying both the current and the requested state and
leaves the order unchanged. -/
theorem updateOrderStatus_follows_transition_table (o : Order) (s : OrderStatus) :
    (s ∈ ORDER_STATUS_FLOW o.orderStatus →
      updateOrderStatus o s = .ok { o with orderStatus := s }) ∧
    (s ∉ ORDER_STATUS_FLOW o.orderStatus →
      updateOrderStatus o s = .invalidTransition o.orderStatus s) := by
  constructor <;> intro h <;> simp [updateOrderStatus, canTransitionTo, h]

/-- Witness for C9 at a concrete input: Pending → Preparing is in the table
and the operation persists it. -/
theorem updateOrderStatus_follows_transition_table_spot :
    updateOrderStatus sampleOrder .Preparing =
      .ok { sampleOrder with orderStatus := .Preparing } :=
  (updateOrderStatus_follows_transition_table sampleOrder .Preparing).1
    (by simp [sampleOrder, ORDER_STATUS_FLOW])

/-- Claim C1: the claim asserts that every claim attempt on an order whose
deliveryId is already set fails with a conflict error and leaves deliveryId
and deliveryVerificationCode unchanged.  The HTTP acceptOrder endpoint
violates this: on an order already claimed by courier 1 (and still Cooked), a
second courier with matching vehicle succeeds and the stored deliveryId and
deliveryVerificationCode are overwritten.  The socket handler, in contrast,
rejects the same attempt with the already-accepted error. -/
theorem acceptOrderHttp_overwrites_claimed_order :
    claimedOrder.deliveryId = some 1 ∧
    claimedOrder.deliveryVerificationCode = some "111111" ∧
    acceptOrderHttp [claimedOrder] courierTwo 10 "222222" =
      .ok ([{ claimedOrder with
               deliveryId := some 2
               deliveryVerificationCode := some "222222" }], "222222") ∧
    acceptOrderSocket [claimedOrder] courierTwo 10 "222222" =
      .error .alreadyAccepted := by
  refine ⟨rfl, rfl, ?_, ?_⟩ <;>
    simp [acceptOrderHttp, acceptOrderSocket, hasActiveOrder, findPaidOrder,
      saveOrder, claimedOrder, courierTwo, sampleOrder]

/-- Claim C4 counterexample: replaying the payment webhook on the already-paid
order is not a no-op.  The second call regenerates the handoff verification
code (the stored order changes) and sends the SMS again. -/
theorem chapaWebhook_replay_changes_state :
    paidWebhookOrder.txStatus = .PAID ∧
    (chapaWebhookApply paidWebhookOrder "222222").1 ≠ paidWebhookOrder ∧
    (chapaWebhookApply paidWebhookOrder "222222").1.userVerificationCode = some "222222" ∧
    (chapaWebhookApply paidWebhookOrder "222222").2 =
      { phone := some "+97312345678", code := "222222" } := by
  refine ⟨rfl, ?_, rfl, ?_⟩ <;>
    simp [chapaWebhookApply, paidWebhookOrder, sampleOrder]

/-- Claim C4 (amended): replaying the webhook is not idempotent.  Every call
overwrites the stored handoff code with the freshly generated one and sends
the SMS again; the state after a replay is the state the second call alone
would have produced (last write wins), not the state after the first call. -/
theorem chapaWebhook_replay_overwrites (o : Order) (c1 c2 : String) :
    (chapaWebhookApply (chapaWebhookApply o c1).1 c2).1 = (chapaWebhookApply o c2).1 ∧
    (chapaWebhookApply o c1).1.userVerificationCode = some c1 ∧
    (chapaWebhookApply (chapaWebhookApply o c1).1 c2).2.code = c2 := by
  refine ⟨?_, rfl, rfl⟩
  simp [chapaWebhookApply]

/-- Claim C3 counterexample: a PAID deposit does not count towards the
computed balance, while the claim counts every deposit regardless of status.
With one PAID deposit of net 92 the code computes 0 and the claim demands
92. -/
theorem calculateTotal_paid_deposit_cex :
    calculateTotal [paidDeposit] 5 = 0 ∧
    specClaimedBalance [paidDeposit] 5 = 92 ∧
    calculateTotal [paidDeposit] 5 ≠ specClaimedBalance [paidDeposit] 5 := by
  refine ⟨?_, ?_, ?_⟩ <;>
    simp [calculateTotal, specClaimedBalance, paidDeposit, approvedLike, signedNet]

/-- Claim C3 (amended): the computed balance filters deposits by status as
well: it equals the sum of netAmount over the deposits of the owner whose
status is in the approved-like set (APPROVED, PROCESSING, SUCCESS) minus the
sum of netAmount over the withdrawals of the owner in that same set. -/
theorem calculateTotal_filters_deposits_too (ledger : List BalanceDoc) (ownerId : Nat) :
    calculateTotal ledger ownerId =
      ((ledger.filter fun e =>
          decide (e.ownerId = ownerId) && decide (e.type = .Deposit) &&
            decide (e.status ∈ approvedLike)).map
        (fun e => e.netAmount)).sum -
      ((ledger.filter fun e =>
          decide (e.ownerId = ownerId) && decide (e.type = .Withdraw) &&
            decide (e.status ∈ approvedLike)).map
        (fun e => e.netAmount)).sum := by
  induction ledger with
  | nil => simp [calculateTotal]
  | cons e rest ih =>
    by_cases howner : e.ownerId = ownerId <;>
      by_cases hstatus : e.status ∈ approvedLike <;>
      cases htype : e.type <;>
      simp [calculateTotal, List.filter, howner, hstatus, htype, signedNet,
        calculateTotal] at ih ⊢ <;>
      rw [ih] <;> ring

/-- round2 always produces a whole number of cents. -/
theorem round2_isCents (q : ℚ) : IsCents (round2 q) :=
  ⟨⌊q * 100 + 1 / 2⌋, rfl⟩

/-- round2 leaves a whole number of cents unchanged. -/
theorem round2_eq_self_of_isCents {q : ℚ} (h : IsCents q) : round2 q = q := by
  obtain ⟨n, rfl⟩ := h
  have h100 : ((n : ℚ) / 100) * 100 = (n : ℚ) := by
    field_simp
  rw [round2, h100]
  rw [show ((n : ℚ) + 1 / 2) = (1 / 2 : ℚ) + (n : ℤ) by ring]
  rw [Int.floor_add_int]
  norm_num

/-- round2 is idempotent. -/
theorem round2_round2 (q : ℚ) : round2 (round2 q) = round2 q :=
  round2_eq_self_of_isCents (round2_isCents q)

/-- Sums of whole-cent amounts are whole-cent amounts. -/
theorem IsCents.add {a b : ℚ} (ha : IsCents a) (hb : IsCents b) : IsCents (a + b) := by
  obtain ⟨m, rfl⟩ := ha
  obtain ⟨n, rfl⟩ := hb
  exact ⟨m + n, by rw [Int.cast_add]; ring⟩

/-- Claim C6 counterexample: for a restaurant deposit of 100.0048 at the 8
percent fee and 5 percent VAT rates, the hook rounds the post-fee amount to
92.00 before applying the VAT multiplier and stores net 96.60, while the
formula of the claim computes round2(92.0048 * 1.05) = 96.61. -/
theorem depositNet_double_rounding_cex :
    depositFee cfgDefault .Restaurant (1000048/10000) = 8 ∧
    depositNet cfgDefault .Restaurant (1000048/10000) = 966/10 ∧
    specClaimedDepositNet cfgDefault .Restaurant (1000048/10000) = 9661/100 ∧
    depositNet cfgDefault .Restaurant (1000048/10000) ≠
      specClaimedDepositNet cfgDefault .Restaurant (1000048/10000) := by
  refine ⟨?_, ?_, ?_, ?_⟩ <;>
    norm_num [depositNet, depositFee, specClaimedDepositNet, depositFeeRate,
      depositVatRate, cfgDefault, round2]

/-- Claim C6 (amended): for every newly created Deposit entry with a present
originalAmount, fee = round2(original * feeRate) with the rate selected by
owner kind, and netAmount = round2(round2(original - fee) * (1 + vatRate)) —
the post-fee amount is itself rounded to two decimals before the VAT
multiplier is applied.  For delivery deposits the VAT rate is zero, so the
net amount reduces to round2(original - fee). -/
theorem balanceCreate_deposit_fee_net (cfg : FeeConfig) (d : BalanceCreateDoc)
    (now : Nat) (a : ℚ) (htype : d.type = .Deposit) (ha : d.originalAmount = some a) :
    balanceCreate cfg d now =
      .ok { requesterType := d.requesterType
            ownerId := d.ownerId
            originalAmount := a
            fee := round2 (a * depositFeeRate cfg d.requesterType)
            netAmount := depositNet cfg d.requesterType a
            type := .Deposit
            status := d.status
            note := d.note
            createdAt := now } ∧
    (d.requesterType = .Delivery →
      depositNet cfg d.requesterType a = round2 (a - depositFee cfg d.requesterType a)) := by
  constructor
  · simp [balanceCreate, balancePreValidate, htype, ha, depositFee]
  · intro hrt
    simp [depositNet, hrt, depositVatRate, round2_round2]

/-- Witness for C6 at a concrete input: a delivery deposit of 120 at the
default rates is created with fee 12 and net 108. -/
theorem balanceCreate_deposit_fee_net_spot :
    balanceCreate cfgDefault
        { requesterType := .Delivery
          ownerId := 7
          originalAmount := some 120
          type := .Deposit
          status := .PAID
          note := "Delivery payment for order 10" } 3 =
      .ok { requesterType := .Delivery
            ownerId := 7
            originalAmount := 120
            fee := round2 (120 * depositFeeRate cfgDefault .Delivery)
            netAmount := depositNet cfgDefault .Delivery 120
            type := .Deposit
            status := .PAID
            note := "Delivery payment for order 10"
            createdAt := 3 } :=
  (balanceCreate_deposit_fee_net cfgDefault
    { requesterType := .Delivery
      ownerId := 7
      originalAmount := some 120
      type := .Deposit
      status := .PAID
      note := "Delivery payment for order 10" } 3 120 rfl rfl).1

/-- Claim C2: the claim asserts that pickup with the correct code commits the
Delivering transition together with a restaurant deposit over the food
subtotal.  In the source, Balance.create receives the amount under the
non-schema path amount, so originalAmount is missing, the pre-validate hook
fails, and the whole transaction — status change included — is aborted with a
server error: a valid pickup never succeeds.  The error outcome carries no
state, which also checks the no-partial-state half of the claim. -/
theorem pickUpOrder_valid_code_aborts :
    cookedOrder.deliveryVerificationCode = some "123456" ∧
    cookedOrder.orderStatus = .Cooked ∧
    pickUpOrder cfgDefault [cookedOrder] [] 10 "123456" 1 =
      .serverError "originalAmount is not a valid number" := by
  refine ⟨rfl, rfl, ?_⟩
  simp [pickUpOrder, balanceCreate, balancePreValidate, cookedOrder, sampleOrder]

/-- Claim C8: a withdrawal request for more than the current balance is
rejected with the insufficient-balance error and persists no ledger entry;
and an entry is persisted only past the positivity, bank and balance checks —
in this model the ledger is never extended at all, because Balance.create
receives the amount under the non-schema path amount and fails validation. -/
theorem requestWithdraw_insufficient_rejected (cfg : FeeConfig)
    (ledger : List BalanceDoc) (ownerId : Nat) (rt : RequesterType) (a : ℚ)
    (bank : String) (chapaOk : Bool) (now : Nat) (hpos : 0 < a)
    (hins : calculateTotal ledger ownerId < a) :
    requestWithdraw cfg ledger ownerId rt (some a) (some bank) chapaOk now =
      (.insufficientBalance, ledger) ∧
    ∀ amt bk ok2 n2,
      (requestWithdraw cfg ledger ownerId rt amt bk ok2 n2).2 = ledger := by
  constructor
  · simp [requestWithdraw, not_le.mpr hpos, hins]
  · intro amt bk ok2 n2
    match amt with
    | none => rfl
    | some b =>
      simp only [requestWithdraw]
      split
      · rfl
      · match bk with
        | none => rfl
        | some bnk =>
          simp only []
          split
          · rfl
          · simp [balanceCreate, balancePreValidate]

/-- Witness for C8 at a concrete input: against an empty ledger (balance 0) a
request to withdraw 50 is rejected as insufficient and the ledger stays
empty. -/
theorem requestWithdraw_insufficient_rejected_spot :
    requestWithdraw cfgDefault [] 7 .Delivery (some 50) (some "855") true 4 =
      (.insufficientBalance, []) :=
  (requestWithdraw_insufficient_rejected cfgDefault [] 7 .Delivery 50 "855" true 4
    (by norm_num) (by norm_num [calculateTotal])).1

/-- The last running annotation over a nonempty list is the starting value
plus the sum of all signed net amounts. -/
theorem runningBalanceAnnotate_last (l : List BalanceDoc) :
    ∀ acc : ℚ, l ≠ [] →
      ((runningBalanceAnnotate acc l).getLast?).map Prod.snd =
        some (acc + (l.map signedNet).sum) := by
  induction l with
  | nil => intro acc h; simp at h
  | cons e rest ih =>
    intro acc _
    cases rest with
    | nil => simp [runningBalanceAnnotate]
    | cons r rs =>
      have step := ih (acc + signedNet e) (by simp)
      simp only [runningBalanceAnnotate] at step ⊢
      rw [List.getLast?_cons_cons, step]
      simp [add_assoc]

/-- Claim C7 counterexample: the running-balance history does not filter by
status, while the balance total does.  For a single PAID deposit of net 92 the
last running annotation is 92 but calculateTotal is 0. -/
theorem runningBalance_ignores_status_cex :
    ((getTransactionsWithRunningBalance [paidDeposit] 5).getLast?).map Prod.snd =
      some 92 ∧
    calculateTotal [paidDeposit] 5 = 0 ∧
    ((getTransactionsWithRunningBalance [paidDeposit] 5).getLast?).map Prod.snd ≠
      some (calculateTotal [paidDeposit] 5) := by
  refine ⟨?_, ?_, ?_⟩ <;>
    simp [getTransactionsWithRunningBalance, runningBalanceAnnotate, sortByCreatedAt,
      ownerEntries, calculateTotal, paidDeposit, approvedLike, signedNet,
      List.mergeSort_singleton]

/-- Claim C7 (amended): for an owner with a nonempty history whose entries ALL
carry an approved-like status, the running-balance annotation on the last
history entry equals the independently computed balance total.  Without that
status restriction the two operations disagree, because the history sums every
entry and calculateTotal only the approved-like ones. -/
theorem lastRunningBalance_matches_calculateTotal (ledger : List BalanceDoc)
    (ownerId : Nat) (hne : ownerEntries ledger ownerId ≠ [])
    (hall : ∀ e ∈ ownerEntries ledger ownerId, e.status ∈ approvedLike) :
    ((getTransactionsWithRunningBalance ledger ownerId).getLast?).map Prod.snd =
      some (calculateTotal ledger ownerId) := by
  have hperm : (sortByCreatedAt (ownerEntries ledger ownerId)).Perm
      (ownerEntries ledger ownerId) := List.mergeSort_perm _ _
  have hne2 : sortByCreatedAt (ownerEntries ledger ownerId) ≠ [] := by
    intro h
    apply hne
    have hp2 := hperm.symm
    rw [h] at hp2
    exact List.Perm.eq_nil hp2
  rw [getTransactionsWithRunningBalance,
    runningBalanceAnnotate_last _ 0 hne2, (hperm.map signedNet).sum_eq]
  have hfilter : ledger.filter (fun e =>
      decide (e.ownerId = ownerId) && decide (e.status ∈ approvedLike)) =
      ownerEntries ledger ownerId := by
    rw [ownerEntries]
    apply List.filter_congr
    intro e he
    by_cases howner : e.ownerId = ownerId
    · have hmem : e ∈ ownerEntries ledger ownerId := by
        rw [ownerEntries]
        exact List.mem_filter.mpr ⟨he, decide_eq_true howner⟩
      simp [howner, hall e hmem]
    · simp [howner]
  rw [calculateTotal, hfilter]
  norm_num

/-- Witness for C7 at a concrete input: a history with one APPROVED deposit,
where the last annotation and the balance total agree. -/
theorem lastRunningBalance_matches_calculateTotal_spot :
    ((getTransactionsWithRunningBalance [approvedDeposit] 5).getLast?).map Prod.snd =
      some (calculateTotal [approvedDeposit] 5) :=
  lastRunningBalance_matches_calculateTotal [approvedDeposit] 5
    (by simp [ownerEntries, approvedDeposit, paidDeposit])
    (by
      intro e he
      simp only [ownerEntries, approvedDeposit, paidDeposit, List.filter,
        List.mem_singleton] at he
      simp_all [approvedLike])

/-- Claim C5 counterexample: with a sub-cent unit price and tip the stored
grand total 40.51 differs from the sum 40.52 of the stored components,
because the components are rounded individually while the total is rounded
once over the unrounded sum. -/
theorem orderPricing_subcent_total_cex :
    pricingCex.totalPrice = 4051/100 ∧
    pricingCex.foodTotal + pricingCex.vatTotal + pricingCex.tip +
      pricingCex.serviceFee = 4052/100 ∧
    pricingCex.totalPrice ≠
      pricingCex.foodTotal + pricingCex.vatTotal + pricingCex.tip +
        pricingCex.serviceFee := by
  refine ⟨?_, ?_, ?_⟩ <;>
    norm_num [pricingCex, validateAndComputeOrderPricing, orderFees, round2,
      cfgDefault]

/-- Claim C5 (amended): the stored grand total equals the sum of the stored
components — food total, VAT, tip, and the fee of the fulfillment type —
provided the raw food subtotal, the tip and the applicable fee are exact
two-decimal amounts; for sub-cent inputs the stored total can differ from the
stored component sum by the rounding. -/
theorem orderPricing_total_additive_on_cents (cfg : FeeConfig)
    (items : List (ℚ × ℕ)) (t : OrderType) (tip fee : ℚ)
    (hfood : IsCents ((items.map fun i => i.1 * (i.2 : ℚ)).sum))
    (htip : IsCents tip) (hfee : IsCents fee)
    (hdine : IsCents cfg.dineInServiceFee) (htake : IsCents cfg.takeawayServiceFee) :
    (validateAndComputeOrderPricing cfg items t tip fee).totalPrice =
      (validateAndComputeOrderPricing cfg items t tip fee).foodTotal +
      (validateAndComputeOrderPricing cfg items t tip fee).vatTotal +
      (validateAndComputeOrderPricing cfg items t tip fee).tip +
      (match t with
        | .Delivery => (validateAndComputeOrderPricing cfg items t tip fee).deliveryFee
        | .DineIn => (validateAndComputeOrderPricing cfg items t tip fee).serviceFee
        | .Takeaway => (validateAndComputeOrderPricing cfg items t tip fee).serviceFee) := by
  have hzero : IsCents (0 : ℚ) := ⟨0, by norm_num⟩
  have hvat : IsCents (round2 (((items.map fun i => i.1 * (i.2 : ℚ)).sum) * cfg.govVat)) :=
    round2_isCents _
  cases t <;>
    simp only [validateAndComputeOrderPricing, orderFees] <;>
    rw [round2_eq_self_of_isCents hfood, round2_eq_self_of_isCents htip,
      round2_eq_self_of_isCents hvat] <;>
    [rw [round2_eq_self_of_isCents hfee,
        round2_eq_self_of_isCents ((((hfood.add htip).add hvat).add hfee).add hzero)];
      rw [round2_eq_self_of_isCents htake,
        round2_eq_self_of_isCents ((((hfood.add htip).add hvat).add hzero).add htake)];
      rw [round2_eq_self_of_isCents hdine,
        round2_eq_self_of_isCents ((((hfood.add htip).add hvat).add hzero).add hdine)]] <;>
    ring

/-- Witness for C5 at the scenario of the specification: two items at 100.00
and one at 50.00 (subtotal 250.00), VAT 12.50 at five percent, delivery fee
120.00, tip 10.00 — the stored total 392.50 equals the stored component
sum. -/
theorem orderPricing_total_additive_on_cents_spot :
    (validateAndComputeOrderPricing cfgDefault [(100, 2), (50, 1)] .Delivery
        10 120).totalPrice =
      (validateAndComputeOrderPricing cfgDefault [(100, 2), (50, 1)] .Delivery
        10 120).foodTotal +
      (validateAndComputeOrderPricing cfgDefault [(100, 2), (50, 1)] .Delivery
        10 120).vatTotal +
      (validateAndComputeOrderPricing cfgDefault [(100, 2), (50, 1)] .Delivery
        10 120).tip +
      (validateAndComputeOrderPricing cfgDefault [(100, 2), (50, 1)] .Delivery
        10 120).deliveryFee :=
  orderPricing_total_additive_on_cents cfgDefault [(100, 2), (50, 1)] .Delivery
    10 120 ⟨25000, by norm_num⟩ ⟨1000, by norm_num⟩ ⟨12000, by norm_num⟩
    ⟨3000, by norm_num [cfgDefault]⟩ ⟨2000, by norm_num [cfgDefault]⟩

/-- Claim C10: a location ping is forwarded to customer c for order oid
exactly when the ping is well-formed and the active-delivery map binds the
sending courier to exactly that order and customer; every other case emits an
error event back to the sender (the outcome type has no silent branch), and
an error outcome forwards nothing. -/
theorem locationRelay_forward_iff (active : List (Nat × ActiveBinding))
    (senderId : Nat) (ping : Option LocationPing) (c oid : Nat) :
    locationUpdateFromCustomerTracking active senderId ping =
        .forwardedToCustomer c oid ↔
      ∃ loc, ping = some loc ∧
        isValidLocation loc.latitude loc.longitude = true ∧
        loc.customerId = some c ∧ loc.orderId = some oid ∧
        List.lookup senderId active = some ⟨oid, c⟩ := by
  constructor
  · intro h
    unfold locationUpdateFromCustomerTracking at h
    split at h
    · simp at h
    · rename_i loc
      split at h
      · simp at h
      · rename_i hvalid
        split at h
        · rename_i customerId orderId hc ho
          split at h
          · simp at h
          · rename_i assigned hl
            split at h
            · simp at h
            · rename_i h1
              split at h
              · simp at h
              · rename_i h2
                injection h with h3 h4
                subst h3
                subst h4
                have hv : isValidLocation loc.latitude loc.longitude = true := by
                  simpa using hvalid
                refine ⟨loc, rfl, hv, hc, ho, ?_⟩
                rw [hl]
                have e1 : assigned.orderId = orderId := by
                  by_contra hne
                  exact h1 hne
                have e2 : assigned.userId = customerId := by
                  by_contra hne
                  exact h2 hne
                cases assigned
                simp_all
        · rename_i hmiss
          simp at h
  · rintro ⟨loc, rfl, hvalid, hc, ho, hl⟩
    simp only [locationUpdateFromCustomerTracking]
    rw [if_neg (by simp [hvalid]), hc, ho, hl]
    simp

